import Mathlib

/-!
Shallow embedding of `src/etl_benchmark.py`, a single-file ETL benchmark that
provisions a synthetic CSV dataset (if absent), runs an eager (pandas) and a
partitioned/lazy (dask) filter + group-by-mean pipeline over it, and prints a
two-row timing/memory comparison table.

Modelling conventions:
- a CSV row is a `Record`; a dataset file's logical content is a `List Record`;
- floating-point `value`s are modelled as exact rationals `ℚ`;
- `np.random.randint`/`np.random.choice` draws are modelled by arbitrary draw
  streams (`Nat → Nat`) reduced into the documented ranges, exactly as the
  library reduces its raw draws;
- the filesystem is a partial map from paths to file contents; `os.makedirs`
  on the empty string raises (CPython behaviour), modelled by `PyErr`;
- wall-clock samples (`time.time()`) and RSS samples (`psutil ... rss`) are
  supplied as ambient traces in `Env`;
- dask partitioning by `blocksize` is abstracted by a rows-per-partition
  count; the dask mean is computed as per-partition (sum, count) pairs merged
  by an aggregation fold, which is the split-apply-combine semantics of
  `df.groupby("category")["value"].mean().compute()`.
-/

/-- One synthetic row of the generated dataset (header
`user_id,category,value,timestamp`); `timestamp` is the row's offset in the
one-second cadence starting at the fixed origin. -/
structure Record where
  user_id : Nat
  category : String
  value : ℚ
  timestamp : Nat
deriving DecidableEq

/-- The fixed label set of `np.random.choice(["A", "B", "C", "D"], rows)`. -/
def labels : List String := ["A", "B", "C", "D"]

/-- Index into the fixed label set. -/
def labelAt (k : Nat) : String := labels.getD k ("A")

/-- One record of `generate_dataset`: `user_id = np.random.randint(1, 100_000)`
reduces a raw draw `uid i` into `[1, 100000)`; `category` is drawn from
`labels`; `value` is the i-th draw of the scaled normal stream; `timestamp`
is the i-th second. -/
def genRecord (uid : Nat → Nat) (cat : Nat → Nat) (val : Nat → ℚ) (i : Nat) : Record :=
  { user_id := 1 + uid i % 99999
    category := labelAt (cat i % 4)
    value := val i
    timestamp := i }

/-- The rows synthesized by `generate_dataset(path, rows)` (the pure dataframe
content, before serialization). -/
def generate_dataset (uid : Nat → Nat) (cat : Nat → Nat) (val : Nat → ℚ) (rows : Nat) :
    List Record :=
  (List.range rows).map (genRecord uid cat val)

/-- Header line written by `df.to_csv(path, index=False)`. -/
def csvHeader : String := "user_id,category,value,timestamp"

/-- One serialized CSV data line. -/
def recordLine (r : Record) : String :=
  toString r.user_id ++ "," ++ r.category ++ "," ++ toString r.value ++ "," ++
    toString r.timestamp

/-- The lines of the file written by `df.to_csv(path, index=False)`:
a header line followed by one line per row. -/
def csvLines (ds : List Record) : List String := csvHeader :: ds.map recordLine

/-- The filter predicate `df["value"] > 0` shared by both pipelines. -/
def keepPos (r : Record) : Bool := decide ((0:ℚ) < r.value)

/-- `pandas_pipeline(path)`: read the whole dataset, keep rows with
`value > 0`, and return the per-category mean of `value` as an association
list keyed by the distinct categories of the filtered frame. -/
def pandas_pipeline (ds : List Record) : List (String × ℚ) :=
  let df := ds.filter keepPos
  ((df.map Record.category).dedup).map (fun c =>
    let vs := (df.filter (fun r => r.category == c)).map Record.value
    (c, vs.sum / (vs.length : ℚ)))

/-- Structural worker for `chunks`: `fuel` bounds the recursion depth and is
instantiated with the list length, which suffices because every step consumes
at least one element. -/
def chunksFuel (n : Nat) : Nat → List Record → List (List Record)
  | _, [] => []
  | 0, l => [l]
  | fuel + 1, x :: xs =>
    if n = 0 then [x :: xs]
    else (x :: xs).take n :: chunksFuel n fuel ((x :: xs).drop n)

/-- Split a list into consecutive chunks of at most `n` elements (the
row-level abstraction of `dd.read_csv(path, blocksize=...)` partitioning);
`n = 0` degenerates to a single partition. -/
def chunks (n : Nat) (l : List Record) : List (List Record) := chunksFuel n l.length l

/-- Merge two partial (sum, count) aggregation states. -/
def combine (a b : ℚ × Nat) : ℚ × Nat := (a.1 + b.1, a.2 + b.2)

/-- Per-partition partial aggregate for one category: the (sum, count) of the
positive `value`s of that category inside the partition. -/
def partAgg (c : String) (part : List Record) : ℚ × Nat :=
  let vs := ((part.filter keepPos).filter (fun r => r.category == c)).map Record.value
  (vs.sum, vs.length)

/-- `dask_pipeline(path, blocksize)`: load the dataset as `blockrows`-row
partitions, apply the same filter lazily per partition, and compute the
grouped mean by merging per-partition (sum, count) states, which is how the
split-apply-combine `mean` is materialized by `.compute()`. -/
def dask_pipeline (blockrows : Nat) (ds : List Record) : List (String × ℚ) :=
  let parts := chunks blockrows ds
  let df := (parts.map (List.filter keepPos)).flatten
  ((df.map Record.category).dedup).map (fun c =>
    let t := (parts.map (partAgg c)).foldl combine (0, 0)
    (c, t.1 / (t.2 : ℚ)))

/-- Modelled from the spec (section 4.2): the contract of the eager pipeline,
"retain only rows where `value > 0`, compute the mean of `value` grouped by
`category`, return a mapping category→mean", rendered directly as the mean of
the positive values of a given category (absent categories give no entry). -/
def eagerMeanSpec (ds : List Record) (c : String) : Option ℚ :=
  let vs := (ds.filter (fun r => r.category == c && keepPos r)).map Record.value
  if vs.length = 0 then none else some (vs.sum / (vs.length : ℚ))

/-- Python's `round` rounds half to even (banker's rounding). -/
def roundHalfEven (q : ℚ) : ℤ :=
  let f := Rat.floor q
  let r := q - (f : ℚ)
  if r < 1/2 then f
  else if 1/2 < r then f + 1
  else if f % 2 = 0 then f else f + 1

/-- `round(x, 2)`: round to two decimal places, half to even. -/
def pyRound2 (q : ℚ) : ℚ := ((roundHalfEven (q * 100) : ℚ)) / 100

/-- `memory_usage_mb()`: the RSS sample in bytes divided by `1024 ** 2`. -/
def memory_usage_mb (rssBytes : Nat) : ℚ := (rssBytes : ℚ) / (1024 ^ 2)

/-- `timed(func)`: the call's result paired with the difference of the two
surrounding wall-clock samples, rounded to two decimal places. -/
def timed (t0 t1 : ℚ) (result : α) : α × ℚ := (result, pyRound2 (t1 - t0))

/-- `os.path.dirname` (POSIX): everything before the last `/`, with trailing
slashes stripped unless the head is all slashes; the empty string when the
path has no `/`. -/
def dirname (path : String) : String :=
  let rev := path.toList.reverse
  let headRev := rev.dropWhile (fun ch => ch != '/')
  if headRev.isEmpty then String.mk []
  else if headRev.all (fun ch => ch == '/') then String.mk headRev.reverse
  else String.mk ((headRev.dropWhile (fun ch => ch == '/')).reverse)

/-- Python exceptions observable in this workflow. -/
inductive PyErr where
  | fileNotFound
  | raised (code : Nat)
deriving DecidableEq

/-- The filesystem: a partial map from paths to the logical content of the
dataset files stored there. -/
structure FS where
  files : String → Option (List Record)

/-- CLI arguments (`--data-path`, `--rows`, `--blocksize`); the blocksize
string is abstracted to the rows-per-partition count it induces. -/
structure Args where
  data_path : String
  rows : Nat
  blockrows : Nat

/-- The ambient execution environment: the random draw streams consumed by
`np.random`, fault injection for the fallible library calls (a `some e` means
that call raises `e`), the wall-clock sample trace of `time.time()` and the
RSS sample trace of `psutil`. -/
structure Env where
  uid : Nat → Nat
  cat : Nat → Nat
  val : Nat → ℚ
  writeErr : Option PyErr
  readErr : Option PyErr
  pandasErr : Option PyErr
  daskErr : Option PyErr
  clock : Nat → ℚ
  rss : Nat → Nat

/-- `generate_dataset(path, rows)` as a filesystem action: `os.makedirs` on
the parent directory first — which raises `FileNotFoundError` when
`os.path.dirname(path)` is the empty string — then the dataframe synthesis
and the `to_csv` write (whose filesystem errors propagate). -/
def generate_datasetFS (fs : FS) (path : String) (rows : Nat) (env : Env) :
    Except PyErr FS :=
  if dirname path = String.mk [] then Except.error PyErr.fileNotFound
  else
    match env.writeErr with
    | some e => Except.error e
    | none =>
      Except.ok
        { files := fun p =>
            if p = path then some (generate_dataset env.uid env.cat env.val rows)
            else fs.files p }

/-- The provisioning step of `main`: generate the dataset only when
`os.path.exists(args.data_path)` is false. -/
def provisionFS (fs : FS) (a : Args) (env : Env) : Except PyErr FS :=
  if (fs.files a.data_path).isSome then Except.ok fs
  else generate_datasetFS fs a.data_path a.rows env

/-- A CSV read (`pd.read_csv` / `dd.read_csv`): yields the file's rows, or
raises the injected I/O error, or `FileNotFoundError` when absent. -/
def read_csvFS (fs : FS) (env : Env) (path : String) : Except PyErr (List Record) :=
  match env.readErr with
  | some e => Except.error e
  | none =>
    match fs.files path with
    | some ds => Except.ok ds
    | none => Except.error PyErr.fileNotFound

/-- The eager pipeline run as a fallible call: read, then either the injected
library error or the pure aggregation. -/
def pandasRunFS (env : Env) (fs : FS) (path : String) :
    Except PyErr (List (String × ℚ)) := do
  let ds ← read_csvFS fs env path
  match env.pandasErr with
  | some e => Except.error e
  | none => Except.ok (pandas_pipeline ds)

/-- The partitioned pipeline run as a fallible call. -/
def daskRunFS (env : Env) (fs : FS) (path : String) (blockrows : Nat) :
    Except PyErr (List (String × ℚ)) := do
  let ds ← read_csvFS fs env path
  match env.daskErr with
  | some e => Except.error e
  | none => Except.ok (dask_pipeline blockrows ds)

/-- One row of the printed comparison table. -/
structure BenchRow where
  framework : String
  execTimeSec : ℚ
  memoryMB : ℚ
deriving DecidableEq

/-- What `main` prints on success: the two-row comparison table and the
sample of the dask aggregation output. -/
structure Report where
  table : List BenchRow
  sample : List (String × ℚ)
deriving DecidableEq

/-- `main(args)`: provision the dataset if missing, run the timed pandas
pipeline (clock samples 0 and 1, RSS sample 0), run the timed dask pipeline
(clock samples 2 and 3, RSS sample 1), and assemble the report; any raised
error aborts the whole run. The resulting filesystem is returned alongside
the report to make the run's disk effect observable. -/
def mainFS (fs : FS) (a : Args) (env : Env) : Except PyErr (FS × Report) := do
  let fs1 ← provisionFS fs a env
  let pres ← pandasRunFS env fs1 a.data_path
  let ptimed := timed (env.clock 0) (env.clock 1) pres
  let pandas_mem := pyRound2 (memory_usage_mb (env.rss 0))
  let dres ← daskRunFS env fs1 a.data_path a.blockrows
  let dtimed := timed (env.clock 2) (env.clock 3) dres
  let dask_mem := pyRound2 (memory_usage_mb (env.rss 1))
  Except.ok (fs1,
    { table :=
        [⟨"Pandas", ptimed.2, pandas_mem⟩,
         ⟨"Dask", dtimed.2, dask_mem⟩]
      sample := dtimed.1 })


/-- The filtered per-category value column of a frame, used to relate the two
pipelines' aggregates. -/
def vsOf (c : String) (l : List Record) : List ℚ :=
  ((l.filter keepPos).filter (fun r => r.category == c)).map Record.value

/-- Concrete draw stream for worked instances: user id draws. -/
def uidW : Nat → Nat := fun i => 123456 + i

/-- Concrete draw stream for worked instances: category draws. -/
def catW : Nat → Nat := fun i => 6 + i

/-- Concrete value stream for worked instances. -/
def valW : Nat → ℚ := fun _ => 0

/-- A filesystem holding an empty dataset at `data/d.csv`. -/
def fs0 : FS := { files := fun p => if p = "data/d.csv" then some [] else none }

/-- A filesystem with no files. -/
def fsEmpty : FS := { files := fun _ => none }

/-- Arguments pointing at `data/d.csv`. -/
def a0 : Args := { data_path := "data/d.csv", rows := 5, blockrows := 2 }

/-- Arguments whose data path has no directory component. -/
def a9 : Args := { data_path := "dataset.csv", rows := 5, blockrows := 2 }

/-- A fault-free environment with constant clock and RSS traces. -/
def envOk : Env :=
  { uid := uidW, cat := catW, val := valW,
    writeErr := none, readErr := none, pandasErr := none, daskErr := none,
    clock := fun _ => 0, rss := fun _ => 0 }

/-- The environment `envOk` with a filesystem error injected into the
`to_csv` write. -/
def envBoom : Env := { envOk with writeErr := some (PyErr.raised 7) }

/-- The report produced by running `mainFS` over `fs0`, `a0`, `envOk`. -/
def report0 : Report :=
  { table :=
      [⟨"Pandas", pyRound2 (envOk.clock 1 - envOk.clock 0),
          pyRound2 (memory_usage_mb (envOk.rss 0))⟩,
       ⟨"Dask", pyRound2 (envOk.clock 3 - envOk.clock 2),
          pyRound2 (memory_usage_mb (envOk.rss 1))⟩]
    sample := [] }

/-- A one-row dataset whose single `value` is negative. -/
def dsNeg : List Record := [⟨1, "A", -5, 0⟩]

example : pandas_pipeline [] = [] := by rfl

example : dirname ("data/large_dataset.csv") = "data" := by rfl

example : dirname ("dataset.csv") = String.mk [] := by rfl

example : dirname ("a//b") = "a" := by rfl

example : dirname ("/b") = "/" := by rfl

example :
    pandas_pipeline
      [⟨1, "A", 2, 0⟩, ⟨2, "B", -1, 1⟩, ⟨3, "A", 4, 2⟩] =
      [("A", (2 + (4 + 0)) / (2:ℚ))] := by rfl

example :
    dask_pipeline 2 [⟨1, "A", 2, 0⟩, ⟨2, "B", -1, 1⟩, ⟨3, "A", 4, 2⟩] =
      [("A", (0 + (2 + 0) + (4 + 0)) / ((0 + 1 + 1 : Nat) : ℚ))] := by rfl

theorem chunksFuel_flatten (n : Nat) :
    ∀ (fuel : Nat) (l : List Record), l.length ≤ fuel →
      (chunksFuel n fuel l).flatten = l := by
  intro fuel
  induction fuel with
  | zero =>
    intro l hl
    cases l with
    | nil => rfl
    | cons x xs => simp at hl
  | succ fuel ih =>
    intro l hl
    cases l with
    | nil => rfl
    | cons x xs =>
      by_cases hn : n = 0
      · simp [chunksFuel, hn]
      · rw [chunksFuel]
        simp only [if_neg hn, List.flatten_cons]
        have hlen : ((x :: xs).drop n).length ≤ fuel := by
          simp only [List.length_drop, List.length_cons] at hl ⊢
          omega
        rw [ih ((x :: xs).drop n) hlen]
        exact List.take_append_drop n (x :: xs)

theorem chunks_flatten (n : Nat) (l : List Record) : (chunks n l).flatten = l :=
  chunksFuel_flatten n l.length l (Nat.le_refl _)

theorem lookup_map_keyfun (keys : List String) (f : String → ℚ) (c : String) :
    (keys.map (fun k => (k, f k))).lookup c =
      if c ∈ keys then some (f c) else none := by
  induction keys with
  | nil => simp
  | cons k ks ih =>
    by_cases h : c = k
    · subst h
      simp [List.lookup]
    · simp only [List.map_cons, List.lookup, beq_false_of_ne h, List.mem_cons]
      rw [ih]
      simp [h]

theorem partAgg_eq_vsOf (c : String) (part : List Record) :
    partAgg c part = ((vsOf c part).sum, (vsOf c part).length) := rfl

theorem vsOf_append (c : String) (l1 l2 : List Record) :
    vsOf c (l1 ++ l2) = vsOf c l1 ++ vsOf c l2 := by
  simp [vsOf, List.filter_append]

theorem foldl_combine_eq (c : String) :
    ∀ (parts : List (List Record)) (a : ℚ) (b : Nat),
      (parts.map (partAgg c)).foldl combine (a, b) =
        (a + (vsOf c parts.flatten).sum, b + (vsOf c parts.flatten).length) := by
  intro parts
  induction parts with
  | nil => intro a b; simp [vsOf]
  | cons p ps ih =>
    intro a b
    simp only [List.map_cons, List.foldl_cons, List.flatten_cons, vsOf_append]
    rw [partAgg_eq_vsOf, combine, ih]
    simp [add_assoc]

theorem dask_eq_pandas (n : Nat) (ds : List Record) :
    dask_pipeline n ds = pandas_pipeline ds := by
  simp only [dask_pipeline, pandas_pipeline]
  have hdf : ((chunks n ds).map (List.filter keepPos)).flatten = ds.filter keepPos := by
    rw [← List.filter_flatten, chunks_flatten]
  rw [hdf]
  apply List.map_congr_left
  intro c _
  have hfold := foldl_combine_eq c (chunks n ds) 0 0
  rw [hfold]
  have hvs : vsOf c (chunks n ds).flatten = vsOf c ds := by rw [chunks_flatten]
  rw [hvs]
  simp [vsOf]

theorem mem_keys_iff (ds : List Record) (c : String) :
    c ∈ ((ds.filter keepPos).map Record.category).dedup ↔
      ¬ (ds.filter (fun r => r.category == c && keepPos r) = []) := by
  rw [List.mem_dedup, List.mem_map, List.filter_eq_nil_iff]
  push_neg
  constructor
  · rintro ⟨r, hr, hc⟩
    rw [List.mem_filter] at hr
    exact ⟨r, hr.1, by simp [hc, hr.2]⟩
  · rintro ⟨r, hr, hp⟩
    simp only [Bool.and_eq_true, beq_iff_eq] at hp
    exact ⟨r, List.mem_filter.mpr ⟨hr, hp.2⟩, hp.1⟩

theorem pandas_lookup (ds : List Record) (c : String) :
    (pandas_pipeline ds).lookup c = eagerMeanSpec ds c := by
  simp only [pandas_pipeline, eagerMeanSpec]
  rw [lookup_map_keyfun, List.filter_filter]
  by_cases h : c ∈ ((ds.filter keepPos).map Record.category).dedup
  · rw [if_pos h]
    have hne := (mem_keys_iff ds c).mp h
    rw [if_neg (by simpa [List.length_eq_zero] using hne)]
  · rw [if_neg h]
    have heq : ds.filter (fun r => r.category == c && keepPos r) = [] := by
      by_contra hne
      exact h ((mem_keys_iff ds c).mpr hne)
    rw [if_pos (by simp [heq])]

theorem roundHalfEven_nonneg (q : ℚ) (h : 0 ≤ q) : 0 ≤ roundHalfEven q := by
  have hf : (0:ℤ) ≤ Rat.floor q := Rat.le_floor.mpr (by exact_mod_cast h)
  unfold roundHalfEven
  dsimp only
  split
  · exact hf
  · split
    · omega
    · split
      · exact hf
      · omega

theorem pyRound2_nonneg (q : ℚ) (h : 0 ≤ q) : 0 ≤ pyRound2 q := by
  unfold pyRound2
  apply div_nonneg _ (by norm_num)
  exact_mod_cast roundHalfEven_nonneg (q * 100) (by positivity)

theorem memory_usage_mb_nonneg (b : Nat) : 0 ≤ memory_usage_mb b := by
  unfold memory_usage_mb
  positivity

theorem dirname_empty_of_noslash (p : String) (h : ∀ ch ∈ p.toList, ch ≠ '/') :
    dirname p = String.mk [] := by
  simp only [dirname]
  have hd : p.toList.reverse.dropWhile (fun ch => ch != '/') = [] := by
    rw [List.dropWhile_eq_nil_iff]
    intro x hx
    simp [h x (List.mem_reverse.mp hx)]
  rw [hd]
  rfl

theorem mainFS_ok_shape (fs : FS) (a : Args) (env : Env) (fs2 : FS) (rep : Report)
    (h : mainFS fs a env = Except.ok (fs2, rep)) :
    provisionFS fs a env = Except.ok fs2 ∧
    rep.table =
      [⟨"Pandas", pyRound2 (env.clock 1 - env.clock 0), pyRound2 (memory_usage_mb (env.rss 0))⟩,
       ⟨"Dask", pyRound2 (env.clock 3 - env.clock 2), pyRound2 (memory_usage_mb (env.rss 1))⟩] ∧
    ∃ dres, daskRunFS env fs2 a.data_path a.blockrows = Except.ok dres ∧ rep.sample = dres := by
  cases hprov : provisionFS fs a env with
  | error e => simp [mainFS, hprov, Except.instMonad, Except.bind] at h
  | ok fs1 =>
    cases hp : pandasRunFS env fs1 a.data_path with
    | error e => simp [mainFS, hprov, hp, Except.instMonad, Except.bind] at h
    | ok pres =>
      cases hd : daskRunFS env fs1 a.data_path a.blockrows with
      | error e => simp [mainFS, hprov, hp, hd, Except.instMonad, Except.bind] at h
      | ok dres =>
        simp only [mainFS, hprov, hp, hd, Except.instMonad, Except.bind, timed] at h
        rw [Except.ok.injEq, Prod.mk.injEq] at h
        obtain ⟨hfs, hrep⟩ := h
        subst hfs
        subst hrep
        exact ⟨rfl, rfl, dres, hd, rfl⟩

/-- C1: on the same dataset, the eager pipeline and the partitioned pipeline
produce the same aggregation mapping — exactly equal in the exact-arithmetic
model, hence within any floating-point tolerance — whatever the partition
size, both as whole mappings and per category. -/
theorem spec_C1 (blockrows : Nat) (ds : List Record) :
    dask_pipeline blockrows ds = pandas_pipeline ds ∧
    ∀ c : String,
      (dask_pipeline blockrows ds).lookup c = (pandas_pipeline ds).lookup c := by
  refine ⟨dask_eq_pandas blockrows ds, fun c => ?_⟩
  rw [dask_eq_pandas]

/-- C2: the eager pipeline maps each category to the arithmetic mean of
`value` over exactly the rows with that category and strictly positive
`value`, and has no entry for any other category. -/
theorem spec_C2 (ds : List Record) (c : String) :
    (pandas_pipeline ds).lookup c = eagerMeanSpec ds c :=
  pandas_lookup ds c

/-- C3: when the dataset file already exists, the workflow's provisioning
step returns the filesystem untouched, and any successful run leaves the
file's contents unchanged, for any `--rows` and `--blocksize` values. -/
theorem spec_C3 (fs : FS) (a : Args) (env : Env)
    (h : (fs.files a.data_path).isSome = true) :
    provisionFS fs a env = Except.ok fs ∧
    ∀ fs2 rep, mainFS fs a env = Except.ok (fs2, rep) →
      fs2.files a.data_path = fs.files a.data_path := by
  have hprov : provisionFS fs a env = Except.ok fs := by simp [provisionFS, h]
  refine ⟨hprov, fun fs2 rep hrun => ?_⟩
  obtain ⟨hp2, -, -⟩ := mainFS_ok_shape fs a env fs2 rep hrun
  rw [hprov] at hp2
  injection hp2 with hfs
  rw [← hfs]

/-- C4: a freshly generated dataset of positive size `R` serializes to a
file of exactly `R` data rows plus one header row. -/
theorem spec_C4 (uid cat : Nat → Nat) (val : Nat → ℚ) (R : Nat) (h : 0 < R) :
    (csvLines (generate_dataset uid cat val R)).length = R + 1 := by
  simp [csvLines, generate_dataset]

/-- C5: every generated record draws its `category` from the fixed label set
and its `user_id` from the bounded range `[1, 100000)`. -/
theorem spec_C5 (uid cat : Nat → Nat) (val : Nat → ℚ) (rows : Nat) (r : Record)
    (hr : r ∈ generate_dataset uid cat val rows) :
    r.category ∈ labels ∧ 1 ≤ r.user_id ∧ r.user_id < 100000 := by
  simp only [generate_dataset, List.mem_map, List.mem_range] at hr
  obtain ⟨i, hi, rfl⟩ := hr
  refine ⟨?_, ?_, ?_⟩
  · have h4 : cat i % 4 = 0 ∨ cat i % 4 = 1 ∨ cat i % 4 = 2 ∨ cat i % 4 = 3 := by omega
    rcases h4 with h | h | h | h <;> simp [genRecord, labelAt, labels, h]
  · simp [genRecord]
  · have hm : uid i % 99999 < 99999 := Nat.mod_lt _ (by norm_num)
    simp only [genRecord]
    omega

/-- C6: each pipeline's aggregation is deterministic: two runs of the same
pipeline on the same dataset agree, and the partitioned pipeline's result
does not even depend on the chosen partition size. -/
theorem spec_C6 (ds : List Record) (n₁ n₂ : Nat) :
    pandas_pipeline ds = pandas_pipeline ds ∧
    dask_pipeline n₁ ds = dask_pipeline n₁ ds ∧
    dask_pipeline n₁ ds = dask_pipeline n₂ ds := by
  refine ⟨rfl, rfl, ?_⟩
  rw [dask_eq_pandas, dask_eq_pandas]

/-- C7: a successful run's comparison table has exactly the two rows Pandas
and Dask; the execution times are the rounded differences of the surrounding
wall-clock samples, and with nondecreasing clock samples all time and memory
fields are non-negative. -/
theorem spec_C7 (fs : FS) (a : Args) (env : Env) (fs2 : FS) (rep : Report)
    (hrun : mainFS fs a env = Except.ok (fs2, rep))
    (h01 : env.clock 0 ≤ env.clock 1) (h23 : env.clock 2 ≤ env.clock 3) :
    rep.table.length = 2 ∧
    rep.table.map BenchRow.framework = ["Pandas", "Dask"] ∧
    rep.table.map BenchRow.execTimeSec =
      [pyRound2 (env.clock 1 - env.clock 0), pyRound2 (env.clock 3 - env.clock 2)] ∧
    ∀ row ∈ rep.table, 0 ≤ row.execTimeSec ∧ 0 ≤ row.memoryMB := by
  obtain ⟨-, htab, -⟩ := mainFS_ok_shape fs a env fs2 rep hrun
  rw [htab]
  refine ⟨rfl, rfl, rfl, ?_⟩
  intro row hrow
  simp only [List.mem_cons, List.not_mem_nil, or_false] at hrow
  rcases hrow with rfl | rfl
  · exact ⟨pyRound2_nonneg _ (sub_nonneg.mpr h01),
      pyRound2_nonneg _ (memory_usage_mb_nonneg _)⟩
  · exact ⟨pyRound2_nonneg _ (sub_nonneg.mpr h23),
      pyRound2_nonneg _ (memory_usage_mb_nonneg _)⟩

/-- C8: an error raised at any stage of the workflow — the `to_csv` write
during generation, the dataset read, or either pipeline's library call —
propagates unchanged out of `main`; nothing catches or recovers from it. -/
theorem spec_C8 (fs : FS) (a : Args) (env : Env) (e : PyErr) :
    (fs.files a.data_path = none → dirname a.data_path ≠ String.mk [] →
      env.writeErr = some e → mainFS fs a env = Except.error e) ∧
    ((fs.files a.data_path).isSome = true → env.readErr = some e →
      mainFS fs a env = Except.error e) ∧
    ((fs.files a.data_path).isSome = true → env.readErr = none →
      env.pandasErr = some e → mainFS fs a env = Except.error e) ∧
    ((fs.files a.data_path).isSome = true → env.readErr = none →
      env.pandasErr = none → env.daskErr = some e →
      mainFS fs a env = Except.error e) := by
  refine ⟨?_, ?_, ?_, ?_⟩
  · intro hmiss hdir hw
    simp [mainFS, provisionFS, generate_datasetFS, hmiss, hdir, hw,
      Except.instMonad, Except.bind]
  · intro hsome hr
    simp [mainFS, provisionFS, hsome, pandasRunFS, read_csvFS, hr,
      Except.instMonad, Except.bind]
  · intro hsome hr hp
    obtain ⟨ds, hds⟩ := Option.isSome_iff_exists.mp hsome
    simp [mainFS, provisionFS, hsome, pandasRunFS, read_csvFS, hr, hds, hp,
      Except.instMonad, Except.bind]
  · intro hsome hr hp hd
    obtain ⟨ds, hds⟩ := Option.isSome_iff_exists.mp hsome
    simp [mainFS, provisionFS, hsome, pandasRunFS, daskRunFS, read_csvFS,
      hr, hds, hp, hd, Except.instMonad, Except.bind]

/-- C9: with a `--data-path` that has no directory component and no existing
file, provisioning fails with `FileNotFoundError` — `os.makedirs` is called
on the empty `os.path.dirname` result — and no file is created, the whole
run aborting with that error. -/
theorem spec_C9 (fs : FS) (a : Args) (env : Env)
    (hns : ∀ ch ∈ a.data_path.toList, ch ≠ '/')
    (hmiss : fs.files a.data_path = none) :
    provisionFS fs a env = Except.error PyErr.fileNotFound ∧
    mainFS fs a env = Except.error PyErr.fileNotFound := by
  have hd := dirname_empty_of_noslash a.data_path hns
  have hprov : provisionFS fs a env = Except.error PyErr.fileNotFound := by
    simp [provisionFS, hmiss, generate_datasetFS, hd]
  exact ⟨hprov, by simp [mainFS, hprov, Except.instMonad, Except.bind]⟩

/-- C10: a category with no strictly positive row is absent from the eager
pipeline's mapping, and with no strictly positive row at all the mapping is
empty. -/
theorem spec_C10 (ds : List Record) :
    (∀ c : String, (∀ r ∈ ds, r.category = c → ¬ ((0:ℚ) < r.value)) →
        (pandas_pipeline ds).lookup c = none) ∧
    ((∀ r ∈ ds, ¬ ((0:ℚ) < r.value)) → pandas_pipeline ds = []) := by
  constructor
  · intro c h
    rw [pandas_lookup]
    simp only [eagerMeanSpec]
    have hnil : ds.filter (fun r => r.category == c && keepPos r) = [] := by
      rw [List.filter_eq_nil_iff]
      intro r hr
      simp only [Bool.and_eq_true, beq_iff_eq, keepPos, decide_eq_true_eq, not_and]
      intro hc
      exact h r hr hc
    rw [hnil]
    rfl
  · intro h
    simp only [pandas_pipeline]
    have hnil : ds.filter keepPos = [] := by
      rw [List.filter_eq_nil_iff]
      intro r hr
      simpa [keepPos] using h r hr
    rw [hnil]
    rfl

theorem spec_C3_witness :
    provisionFS fs0 a0 envOk = Except.ok fs0 ∧
    fs0.files a0.data_path = fs0.files a0.data_path :=
  ⟨(spec_C3 fs0 a0 envOk (by decide)).1,
   (spec_C3 fs0 a0 envOk (by decide)).2 fs0 report0 (by rfl)⟩

theorem spec_C4_witness :
    0 < 3 ∧ (csvLines (generate_dataset uidW catW valW 3)).length = 3 + 1 :=
  ⟨by decide, spec_C4 uidW catW valW 3 (by decide)⟩

theorem spec_C5_witness :
    (genRecord uidW catW valW 0).category ∈ labels ∧
    1 ≤ (genRecord uidW catW valW 0).user_id ∧
    (genRecord uidW catW valW 0).user_id < 100000 :=
  spec_C5 uidW catW valW 2 (genRecord uidW catW valW 0) (by decide)

theorem spec_C7_witness :
    report0.table.length = 2 ∧
    report0.table.map BenchRow.framework = ["Pandas", "Dask"] ∧
    report0.table.map BenchRow.execTimeSec =
      [pyRound2 (envOk.clock 1 - envOk.clock 0),
       pyRound2 (envOk.clock 3 - envOk.clock 2)] ∧
    ∀ row ∈ report0.table, 0 ≤ row.execTimeSec ∧ 0 ≤ row.memoryMB :=
  spec_C7 fs0 a0 envOk fs0 report0 (by rfl) (by decide) (by decide)

theorem spec_C8_witness :
    mainFS fsEmpty a0 envBoom = Except.error (PyErr.raised 7) :=
  (spec_C8 fsEmpty a0 envBoom (PyErr.raised 7)).1 (by rfl) (by decide) (by rfl)

theorem spec_C9_witness :
    provisionFS fsEmpty a9 envOk = Except.error PyErr.fileNotFound ∧
    mainFS fsEmpty a9 envOk = Except.error PyErr.fileNotFound :=
  spec_C9 fsEmpty a9 envOk (by decide) (by rfl)

theorem spec_C10_witness :
    (pandas_pipeline dsNeg).lookup ("A") = none ∧ pandas_pipeline dsNeg = [] :=
  ⟨(spec_C10 dsNeg).1 ("A") (by decide), (spec_C10 dsNeg).2 (by decide)⟩
